import Mathlib

/-!
Verification of the NOLAN writing-assistant repository: the agentic
narrative-reasoning pipeline (Context Aggregator, Insight Extractor,
Reasoning Client, Intervention Planner, Cycle Orchestrator) and the
creative-assistant frontend page.

The backend pipeline implementation files
(observation_synthesizer.py, narrative_interpreter.py, grok_integration.py,
intervention_planner.py, agentic_reasoning_engine.py) are not present in the
repository snapshot; only their README and directory structure are. Those
components are therefore modelled from the specification, as flagged on each
definition. The frontend page creative-assistant.jsx is present and is
embedded directly from the source.
-/

namespace Nolan

/-! ## Frontend editor state (from src/Frontend/src/pages/creative-assistant.jsx) -/

/-- Editor-relevant slice of the CreativeAssistantPage component state:
the `content`, `originalContent` and `showKeepUndoControls` useState hooks. -/
structure EditorState where
  content : String
  originalContent : String
  showKeepUndoControls : Bool
  deriving DecidableEq

/-- Embeds the JavaScript blank test `!content.trim()`: the trimmed string
is empty exactly when every character is whitespace. -/
def blankContent (s : String) : Bool :=
  s.data.all Char.isWhitespace

/-- Embeds handleImproveFlow (creative-assistant.jsx lines 160-202) on a
successful improve-flow response carrying text `improved`: the guard
`if (!content.trim()) return;` leaves the state unchanged for
whitespace-only content; otherwise the pre-improvement content is stored in
`originalContent`, the editor content is replaced by `improved`, and the
Keep/Undo controls are shown. -/
def handleImproveFlow (s : EditorState) (improved : String) : EditorState :=
  if blankContent s.content then s
  else
    { content := improved
      originalContent := s.content
      showKeepUndoControls := true }

/-- Embeds handleUndoChanges (creative-assistant.jsx lines 211-216):
restores `content` from `originalContent`, hides the Keep/Undo controls and
clears the stored original content. -/
def handleUndoChanges (s : EditorState) : EditorState :=
  { content := s.originalContent
    originalContent := ""
    showKeepUndoControls := false }

/-- Embeds handleKeepChanges (creative-assistant.jsx lines 205-209):
hides the Keep/Undo controls and clears the stored original content,
keeping the improved text. -/
def handleKeepChanges (s : EditorState) : EditorState :=
  { s with
    originalContent := ""
    showKeepUndoControls := false }

/-! ## Frontend insight panel (from src/Frontend/src/pages/creative-assistant.jsx) -/

/-- One actionable suggestion of an intervention plan, per the spec data
model (section 3) and the README PlannedIntervention fields: priority
ordinal, short description, rationale, optional target location hint, and a
confidence value. Confidence is modelled as a rational number. -/
structure PlannedIntervention where
  priority : Nat
  what : String
  why : String
  target_hint : Option String
  confidence : ℚ
  deriving DecidableEq

/-- Shape of a successful quick-analyze response as read by the frontend:
creative-assistant.jsx uses `insights.overall_story_health`,
`insights.plan_confidence` and `insights.interventions`. -/
structure QuickAnalyzeInsights where
  overall_story_health : String
  plan_confidence : ℚ
  interventions : List PlannedIntervention
  deriving DecidableEq

/-- Embeds the Insights card of the insight panel
(creative-assistant.jsx lines 603-620): it renders
`insights.interventions.slice(0, 3).map(...)`, displaying `item.what`
for each rendered element. -/
def renderedInsightItems (ins : QuickAnalyzeInsights) : List String :=
  (ins.interventions.take 3).map (fun item => item.what)

/-- A concrete four-intervention quick-analyze response, used to exercise
the insight-panel rendering. -/
def exampleInsightsFour : QuickAnalyzeInsights :=
  { overall_story_health := "good"
    plan_confidence := 4/5
    interventions :=
      [ { priority := 1, what := "a", why := "wa", target_hint := none, confidence := 1 },
        { priority := 2, what := "b", why := "wb", target_hint := none, confidence := 1 },
        { priority := 3, what := "c", why := "wc", target_hint := none, confidence := 1 },
        { priority := 4, what := "d", why := "wd", target_hint := none, confidence := 1 } ] }

/-! ## Backend reasoning-pipeline configuration

Modelled from the spec: the backend package app/services/creative_assistant
is absent from the repository snapshot. The configuration defaults follow
the README Key Settings: min_confidence_threshold 0.6,
max_suggestions_per_cycle 5, and three retry attempts with exponential
backoff. The remaining knobs (scene bound, score weights, backoff base,
rate-limit cap) are the tunable parameters the spec leaves open. -/

/-- Modelled from the spec: configuration of the reasoning pipeline
(spec section 4.3, 4.4 and README Key Settings, missing app/config.py). -/
structure Config where
  min_confidence_threshold : ℚ := 6/10
  max_suggestions_per_cycle : Nat := 5
  max_recent_scenes : Nat := 5
  severity_weight : ℚ := 1
  impact_weight : ℚ := 1
  max_retry_attempts : Nat := 3
  backoff_base_seconds : ℚ := 1
  rate_limit_cap_seconds : ℚ := 60

/-- The documented default configuration. -/
def defaultConfig : Config := {}

/-! ## Upstream payloads and the Context Aggregator

Modelled from the spec: sections 4.1 and 6 (missing
observation_synthesizer.py and models/narrative_context.py). -/

/-- Availability of one upstream payload at the aggregator boundary: it is
present and well formed, or it arrived malformed, or it is missing. -/
inductive Upstream (α : Type) where
  | present : α → Upstream α
  | malformed : Upstream α
  | absent : Upstream α

/-- An upstream payload is degraded when it is malformed or absent. -/
def Upstream.degraded : Upstream α → Prop
  | .present _ => False
  | .malformed => True
  | .absent => True

/-- Explicit sentinel wrapper for a numeric or categorical field whose
upstream source may not have supplied a value: the aggregator records
an explicit unknown sentinel instead of propagating a null. -/
inductive Signal (α : Type) where
  | known : α → Signal α
  | unknown : Signal α
  deriving DecidableEq

/-- Sentinel string recorded for absent categorical signals. -/
def unknownSentinel : String := "unknown"

/-- Modelled from the spec: raw narrative-language payload
`pacing?, tone?, voice?` from the NLP extraction service (section 6). -/
structure RawNLPSignals where
  pacing : Option String
  tone : Option String
  voice : Option String

/-- Modelled from the spec: raw knowledge-graph payload
`characters[], relationships[], themes[]` from the graph store. -/
structure RawKnowledgeGraph where
  characters : List String
  relationships : List String
  themes : List String

/-- Modelled from the spec: raw continuity payload `flags[]` from the
continuity validator. -/
structure RawContinuity where
  flags : List String

/-- Modelled from the spec: raw writer-preference payload
`acceptance_rate?, style_notes?` from the preference store. -/
structure RawWriterPrefs where
  acceptance_rate : Option ℚ
  style_notes : Option String

/-- Trigger metadata of one reasoning cycle (spec section 6). -/
structure TriggerContext where
  event_name : String
  story_id : String
  timestamp : Nat
  deriving DecidableEq

/-- Aggregated narrative-language signals with unknown sentinels. -/
structure NLPSignals where
  pacing : String
  tone : String
  voice : String
  deriving DecidableEq

/-- Aggregated knowledge-graph state; lists are empty when the feed is
degraded. -/
structure KnowledgeGraphState where
  characters : List String
  relationships : List String
  themes : List String
  deriving DecidableEq

/-- Aggregated continuity signals; empty when the feed is degraded. -/
structure ContinuitySignals where
  flags : List String
  deriving DecidableEq

/-- Aggregated writer preferences with explicit sentinels. -/
structure WriterPreferences where
  acceptance_rate : Signal ℚ
  style_notes : String
  deriving DecidableEq

/-- Progress markers of the story (spec section 3); the four-feed
aggregator boundary of section 4.1 does not supply them, so the aggregator
records them as unknown sentinels. -/
structure StoryProgress where
  chapter : Signal Nat
  completion_ratio : Signal ℚ
  deriving DecidableEq

/-- Modelled from the spec: the immutable ContextSnapshot value of
section 3 (missing models/narrative_context.py, NarrativeContext in the
README). Every upstream field is optional except the story identifier and
the trigger metadata. -/
structure ContextSnapshot where
  story_id : String
  story_progress : StoryProgress
  nlp_signals : NLPSignals
  knowledge_graph_state : KnowledgeGraphState
  continuity_signals : ContinuitySignals
  writer_preferences : WriterPreferences
  recent_scenes : List String
  trigger : TriggerContext
  deriving DecidableEq

/-- Sentinel narrative-language signals recorded for a degraded feed. -/
def unknownNLPSignals : NLPSignals :=
  { pacing := unknownSentinel, tone := unknownSentinel, voice := unknownSentinel }

/-- Sentinel knowledge-graph state recorded for a degraded feed. -/
def emptyKnowledgeGraph : KnowledgeGraphState :=
  { characters := [], relationships := [], themes := [] }

/-- Sentinel continuity signals recorded for a degraded feed. -/
def noContinuitySignals : ContinuitySignals :=
  { flags := [] }

/-- Sentinel writer preferences recorded for a degraded feed. -/
def unknownWriterPreferences : WriterPreferences :=
  { acceptance_rate := Signal.unknown, style_notes := unknownSentinel }

/-- Modelled from the spec: per-feed construction that cannot fail
(section 9), substituting unknown sentinels for missing fields. -/
def aggregateNLP : Upstream RawNLPSignals → NLPSignals
  | .present r =>
      { pacing := r.pacing.getD unknownSentinel
        tone := r.tone.getD unknownSentinel
        voice := r.voice.getD unknownSentinel }
  | .malformed => unknownNLPSignals
  | .absent => unknownNLPSignals

/-- Modelled from the spec: per-feed construction for the knowledge graph. -/
def aggregateKG : Upstream RawKnowledgeGraph → KnowledgeGraphState
  | .present r =>
      { characters := r.characters, relationships := r.relationships, themes := r.themes }
  | .malformed => emptyKnowledgeGraph
  | .absent => emptyKnowledgeGraph

/-- Modelled from the spec: per-feed construction for continuity flags. -/
def aggregateContinuity : Upstream RawContinuity → ContinuitySignals
  | .present r => { flags := r.flags }
  | .malformed => noContinuitySignals
  | .absent => noContinuitySignals

/-- Modelled from the spec: per-feed construction for writer preferences. -/
def aggregatePrefs : Upstream RawWriterPrefs → WriterPreferences
  | .present r =>
      { acceptance_rate :=
          match r.acceptance_rate with
          | some q => Signal.known q
          | none => Signal.unknown
        style_notes := r.style_notes.getD unknownSentinel }
  | .malformed => unknownWriterPreferences
  | .absent => unknownWriterPreferences

/-- Modelled from the spec: a recent-scene list longer than the configured
maximum is truncated to the most recent entries, oldest first dropped
(section 4.1; the list is ordered oldest to newest). -/
def truncateRecent (cfg : Config) (recent : List String) : List String :=
  recent.drop (recent.length - cfg.max_recent_scenes)

/-- Modelled from the spec: the Context Aggregator (OBSERVE step, missing
observation_synthesizer.py). It accepts the four optional upstream payloads
plus a bounded recent-scene list and a trigger descriptor and always
returns a ContextSnapshot: degraded feeds become explicit sentinels.
Progress markers are not supplied at this boundary and are recorded as
unknown sentinels. -/
def synthesizeObservation (cfg : Config)
    (nlp : Upstream RawNLPSignals) (kg : Upstream RawKnowledgeGraph)
    (cont : Upstream RawContinuity) (prefs : Upstream RawWriterPrefs)
    (recent : List String) (trigger : TriggerContext) : ContextSnapshot :=
  { story_id := trigger.story_id
    story_progress := { chapter := Signal.unknown, completion_ratio := Signal.unknown }
    nlp_signals := aggregateNLP nlp
    knowledge_graph_state := aggregateKG kg
    continuity_signals := aggregateContinuity cont
    writer_preferences := aggregatePrefs prefs
    recent_scenes := truncateRecent cfg recent
    trigger := trigger }

/-! ## Insight Extractor

Modelled from the spec: section 4.2 (missing narrative_interpreter.py). -/

/-- Derived interpretive insights: pacing trend classification,
arc-completion estimate and thematic-consistency score. -/
structure DerivedInsights where
  pacing_trend : String
  arc_completion_estimate : ℚ
  thematic_consistency : ℚ
  deriving DecidableEq

/-- Modelled from the spec: deterministic pacing-trend classification over
the categorical pacing signal; the unknown sentinel maps to the neutral
steady trend. -/
def classifyPacingTrend (pacing : String) : String :=
  if pacing = "fast" then "accelerating"
  else if pacing = "slow" then "decelerating"
  else "steady"

/-- The neutral default insight returned for a fully unknown snapshot. -/
def neutralInsights : DerivedInsights :=
  { pacing_trend := "steady"
    arc_completion_estimate := 1/2
    thematic_consistency := 1/2 }

/-- Modelled from the spec: the Insight Extractor (INTERPRET step, missing
narrative_interpreter.py): a pure, total function of the snapshot computed
by deterministic rules over its numeric and categorical fields, with no
external calls; a fully unknown snapshot yields the neutral insight. -/
def interpretNarrative (s : ContextSnapshot) : DerivedInsights :=
  { pacing_trend := classifyPacingTrend s.nlp_signals.pacing
    arc_completion_estimate :=
      match s.story_progress.completion_ratio with
      | Signal.known r => r
      | Signal.unknown => 1/2
    thematic_consistency :=
      if s.knowledge_graph_state.themes.isEmpty then 1/2
      else max 0 (1 - (s.continuity_signals.flags.length : ℚ) / 10) }

/-- A trigger descriptor used for concrete evaluations. -/
def exampleTrigger : TriggerContext :=
  { event_name := "new_scene_added", story_id := "story_123", timestamp := 0 }

/-- The snapshot produced by the aggregator when every upstream feed is
absent and no recent scenes exist. -/
def fullyUnknownSnapshot (trig : TriggerContext) : ContextSnapshot :=
  synthesizeObservation defaultConfig Upstream.absent Upstream.absent
    Upstream.absent Upstream.absent [] trig

/-! ## Reasoning judgment and the Reasoning Client

Modelled from the spec: sections 3, 4.3 and 7 and the README ReasoningOutput
model (missing grok_integration.py and models/reasoning_output.py). -/

/-- One assessment of the judgment: a categorical value plus a free-text
rationale. -/
structure Assessment where
  category : String
  rationale : String
  deriving DecidableEq

/-- The neutral assessment used by the fallback judgment. -/
def neutralAssessment : Assessment :=
  { category := "neutral", rationale := "No reasoning available." }

/-- One structural concern of the judgment, with a severity weight. -/
structure StructuralConcern where
  description : String
  severity : ℚ
  deriving DecidableEq

/-- One opportunity of the judgment, with an estimated impact. -/
structure Opportunity where
  description : String
  impact : ℚ
  deriving DecidableEq

/-- Modelled from the spec: the typed ReasoningJudgment output of the LLM
call (spec section 3 and the README ReasoningOutput model). -/
structure ReasoningJudgment where
  momentum_assessment : Assessment
  character_arc_assessment : Assessment
  emotional_trajectory : Assessment
  structural_concerns : List StructuralConcern
  thematic_health : Assessment
  opportunities : List Opportunity
  questions_for_writer : List String
  overall_story_health : String
  reasoning_confidence : ℚ
  deriving DecidableEq

/-- Modelled from the spec: the deterministic fallback ReasoningJudgment
returned when all attempts and both parsing strategies fail: neutral
assessments, empty concern and opportunity lists, confidence 0 and an
overall story-health value of unknown. -/
def fallbackJudgment : ReasoningJudgment :=
  { momentum_assessment := neutralAssessment
    character_arc_assessment := neutralAssessment
    emotional_trajectory := neutralAssessment
    structural_concerns := []
    thematic_health := neutralAssessment
    opportunities := []
    questions_for_writer := []
    overall_story_health := "unknown"
    reasoning_confidence := 0 }

/-- Outcome of one call to the LLM provider, classified as in spec
section 6: a successful response body, a transient failure (timeout, 5xx,
connection error), an explicit rate-limit signal carrying the advertised
retry-after delay, or a fatal error. The body type is abstract; the two
parsing strategies are supplied as functions on it. -/
inductive ProviderResponse (β : Type) where
  | success : β → ProviderResponse β
  | transientError : ProviderResponse β
  | rateLimited : ℚ → ProviderResponse β
  | fatal : ProviderResponse β

/-- Modelled from the spec: exponential backoff delay for the given
attempt index (jitter is a tunable left at zero). -/
def backoffDelay (cfg : Config) (attemptIdx : Nat) : ℚ :=
  cfg.backoff_base_seconds * 2 ^ attemptIdx

/-- Modelled from the spec: the bounded retry loop of the Reasoning Client
(section 4.3 steps 2 to 4, missing grok_integration.py). The provider
behaviour is scripted as a list of per-call responses; the result pairs
the judgment with the list of delays waited between calls. A successful
body is parsed strictly, then leniently; a parse failure is absorbed into
the fallback without a further network call. Transient failures retry with
exponential backoff; a rate-limit signal honors the advertised delay
capped at the configured maximum. Exhausted attempts yield the fallback. -/
def runClientGo (cfg : Config) (strict lenient : β → Option ReasoningJudgment) :
    Nat → Nat → List (ProviderResponse β) → List ℚ → ReasoningJudgment × List ℚ
  | 0, _, _, waits => (fallbackJudgment, waits.reverse)
  | _ + 1, _, [], waits => (fallbackJudgment, waits.reverse)
  | fuel + 1, idx, r :: rest, waits =>
    match r with
    | ProviderResponse.success body =>
      match strict body with
      | some j => (j, waits.reverse)
      | none =>
        match lenient body with
        | some j => (j, waits.reverse)
        | none => (fallbackJudgment, waits.reverse)
    | ProviderResponse.fatal => (fallbackJudgment, waits.reverse)
    | ProviderResponse.transientError =>
        runClientGo cfg strict lenient fuel (idx + 1) rest (backoffDelay cfg idx :: waits)
    | ProviderResponse.rateLimited d =>
        runClientGo cfg strict lenient fuel (idx + 1) rest
          (min d cfg.rate_limit_cap_seconds :: waits)

/-- Modelled from the spec: the Reasoning Client entry point, running the
bounded retry loop with the configured attempt budget. It always returns a
judgment: provider and parse failures are absorbed into the fallback and
never escape as exceptions. -/
def runReasoningClient (cfg : Config) (strict lenient : β → Option ReasoningJudgment)
    (responses : List (ProviderResponse β)) : ReasoningJudgment × List ℚ :=
  runClientGo cfg strict lenient cfg.max_retry_attempts 0 responses []

/-! ## Intervention Planner

Modelled from the spec: section 4.4 and the README InterventionPlan model
(missing intervention_planner.py and models/intervention_plan.py). -/

/-- Whether a candidate intervention was derived from a structural concern
or from an opportunity of the judgment. -/
inductive CandidateSource where
  | concern : CandidateSource
  | opportunity : CandidateSource
  deriving DecidableEq

/-- One candidate intervention before ranking: its source kind, its global
position in the judgment lists (concerns first, then opportunities), the
suggestion text, the priority score and the inherited confidence. -/
structure Candidate where
  source : CandidateSource
  src_index : Nat
  what : String
  why : String
  score : ℚ
  confidence : ℚ
  deriving DecidableEq

/-- Modelled from the spec: one candidate per structural concern, scored
as the configured severity weighting times the severity of the concern,
with confidence inherited from the judgment; indices count from n. -/
def concernCandidatesFrom (cfg : Config) (conf : ℚ) :
    Nat → List StructuralConcern → List Candidate
  | _, [] => []
  | n, c :: rest =>
    { source := CandidateSource.concern
      src_index := n
      what := "Address structural concern: " ++ c.description
      why := c.description
      score := cfg.severity_weight * c.severity
      confidence := conf } :: concernCandidatesFrom cfg conf (n + 1) rest

/-- Modelled from the spec: one candidate per opportunity, scored as the
configured impact weighting times the estimated impact, with confidence
inherited from the judgment; indices count from n. -/
def opportunityCandidatesFrom (cfg : Config) (conf : ℚ) :
    Nat → List Opportunity → List Candidate
  | _, [] => []
  | n, o :: rest =>
    { source := CandidateSource.opportunity
      src_index := n
      what := "Pursue opportunity: " ++ o.description
      why := o.description
      score := cfg.impact_weight * o.impact
      confidence := conf } :: opportunityCandidatesFrom cfg conf (n + 1) rest

/-- Modelled from the spec: the candidate interventions derived one-to-one
from the structural concerns and opportunities of the judgment, in
original list order with concerns first. -/
def candidates (cfg : Config) (j : ReasoningJudgment) : List Candidate :=
  concernCandidatesFrom cfg j.reasoning_confidence 0 j.structural_concerns
    ++ opportunityCandidatesFrom cfg j.reasoning_confidence
        j.structural_concerns.length j.opportunities

/-- Ranking preorder of candidates: strictly greater score first; equal
scores fall back to the original list position, which makes the sort
stable and places concerns before opportunities of equal score. -/
abbrev candPref (a b : Candidate) : Prop :=
  b.score < a.score ∨ (a.score = b.score ∧ a.src_index ≤ b.src_index)

instance : IsTotal Candidate candPref :=
  ⟨fun a b => by
    rcases lt_trichotomy a.score b.score with h | h | h
    · exact Or.inr (Or.inl h)
    · rcases le_total a.src_index b.src_index with hle | hle
      · exact Or.inl (Or.inr ⟨h, hle⟩)
      · exact Or.inr (Or.inr ⟨h.symm, hle⟩)
    · exact Or.inl (Or.inl h)⟩

instance : IsTrans Candidate candPref :=
  ⟨fun a b c hab hbc => by
    rcases hab with h1 | ⟨e1, i1⟩
    · rcases hbc with h2 | ⟨e2, i2⟩
      · exact Or.inl (lt_trans h2 h1)
      · exact Or.inl (by rw [← e2]; exact h1)
    · rcases hbc with h2 | ⟨e2, i2⟩
      · exact Or.inl (by rw [e1]; exact h2)
      · exact Or.inr ⟨e1.trans e2, le_trans i1 i2⟩⟩

/-- Modelled from the spec: the ranking step of the planner: stable sort
by descending priority score, drop candidates below the configured
confidence threshold, truncate to the configured maximum suggestions per
cycle. -/
def rankCandidates (cfg : Config) (j : ReasoningJudgment) : List Candidate :=
  ((List.insertionSort candPref (candidates cfg j)).filter
      (fun c => decide (cfg.min_confidence_threshold ≤ c.confidence))).take
    cfg.max_suggestions_per_cycle

/-- Target location hint for planned interventions, taken from the
snapshot when recent scenes exist. -/
def targetHint (s : ContextSnapshot) : Option String :=
  match s.recent_scenes with
  | [] => none
  | _ :: _ => some ("most recent scene of story " ++ s.story_id)

/-- Converts ranked candidates to planned interventions, assigning
priority ordinals from n upward (highest priority first). -/
def toInterventions (hint : Option String) : Nat → List Candidate → List PlannedIntervention
  | _, [] => []
  | n, c :: rest =>
    { priority := n
      what := c.what
      why := c.why
      target_hint := hint
      confidence := c.confidence } :: toInterventions hint (n + 1) rest

/-- Rationale of a plan produced while reasoning was unavailable. -/
def unavailableRationale : String :=
  "Reasoning was unavailable this cycle; no interventions planned."

/-- Rationale of a plan for a healthy story with nothing to suggest. -/
def healthyRationale : String :=
  "No structural concerns or opportunities detected; the story is healthy."

/-- Rationale of a plan whose candidates all fell below the threshold. -/
def lowConfidenceRationale : String :=
  "All candidate interventions fell below the confidence threshold."

/-- Rationale of a plan with ranked interventions. -/
def plannedRationale : String :=
  "Interventions ranked by priority from structural concerns and opportunities."

/-- Modelled from the spec: the InterventionPlan aggregate root returned
to the caller (spec section 3 and the README InterventionPlan model). -/
structure InterventionPlan where
  story_id : String
  trigger_event : String
  planned_interventions : List PlannedIntervention
  why_these_interventions : String
  overall_story_health : String
  plan_confidence : ℚ
  deriving DecidableEq

/-- Modelled from the spec: the Intervention Planner (PLAN step, missing
intervention_planner.py). A judgment with confidence 0 (the fallback case)
yields a well-formed plan with an empty intervention list and the
reasoning-unavailable rationale; otherwise candidates are ranked, filtered
by the confidence threshold and truncated to the per-cycle maximum. The
overall story-health category is copied from the judgment. -/
def planInterventions (cfg : Config) (j : ReasoningJudgment) (s : ContextSnapshot) :
    InterventionPlan :=
  if j.reasoning_confidence = 0 then
    { story_id := s.story_id
      trigger_event := s.trigger.event_name
      planned_interventions := []
      why_these_interventions := unavailableRationale
      overall_story_health := j.overall_story_health
      plan_confidence := 0 }
  else
    { story_id := s.story_id
      trigger_event := s.trigger.event_name
      planned_interventions := toInterventions (targetHint s) 1 (rankCandidates cfg j)
      why_these_interventions :=
        if (candidates cfg j).isEmpty then healthyRationale
        else if (rankCandidates cfg j).isEmpty then lowConfidenceRationale
        else plannedRationale
      overall_story_health := j.overall_story_health
      plan_confidence := j.reasoning_confidence }

/-! ## Cycle Orchestrator

Modelled from the spec: section 4.5 (missing agentic_reasoning_engine.py). -/

/-- Modelled from the spec: bounded prompt text built from the snapshot
and the derived insights (section 4.3 step 1; the exact template is a
tunable the spec leaves open). -/
def buildPrompt (s : ContextSnapshot) (ins : DerivedInsights) : String :=
  "Story " ++ s.story_id ++ "; trigger " ++ s.trigger.event_name
    ++ "; pacing trend " ++ ins.pacing_trend
    ++ "; scenes " ++ toString s.recent_scenes.length

/-- Modelled from the spec: the Cycle Orchestrator (missing
agentic_reasoning_engine.py): one OBSERVE, INTERPRET, REASON, PLAN
sequence per trigger event. The LLM provider is scripted as a function
from the prompt to the list of per-call responses; a wall-clock timeout of
the reasoning step surfaces as a transient response and is absorbed by the
client fallback, so the caller always receives an InterventionPlan. -/
def runReasoningCycle {β : Type} (cfg : Config)
    (strict lenient : β → Option ReasoningJudgment)
    (provider : String → List (ProviderResponse β))
    (nlp : Upstream RawNLPSignals) (kg : Upstream RawKnowledgeGraph)
    (cont : Upstream RawContinuity) (prefs : Upstream RawWriterPrefs)
    (recent : List String) (trigger : TriggerContext) : InterventionPlan :=
  let snapshot := synthesizeObservation cfg nlp kg cont prefs recent trigger
  let insights := interpretNarrative snapshot
  let responses := provider (buildPrompt snapshot insights)
  let judgment := (runReasoningClient cfg strict lenient responses).1
  planInterventions cfg judgment snapshot

/-- A concrete successful judgment used for witnesses. -/
def exampleJudgment : ReasoningJudgment :=
  { momentum_assessment := { category := "building", rationale := "momentum rises" }
    character_arc_assessment := { category := "on_track", rationale := "arc holds" }
    emotional_trajectory := { category := "rising", rationale := "tension grows" }
    structural_concerns := []
    thematic_health := { category := "coherent", rationale := "theme holds" }
    opportunities := [ { description := "deepen the rivalry", impact := 9/10 } ]
    questions_for_writer := []
    overall_story_health := "good"
    reasoning_confidence := 4/5 }

/-- A configuration with a maximum of two suggestions per cycle and a
confidence threshold of one half. -/
def cfgMaxTwo : Config :=
  { min_confidence_threshold := 1/2, max_suggestions_per_cycle := 2 }

/-- A judgment with exactly three opportunity candidates, all above the
one-half threshold via the inherited confidence of 0.8. -/
def exampleJudgmentThree : ReasoningJudgment :=
  { momentum_assessment := { category := "building", rationale := "momentum rises" }
    character_arc_assessment := { category := "on_track", rationale := "arc holds" }
    emotional_trajectory := { category := "rising", rationale := "tension grows" }
    structural_concerns := []
    thematic_health := { category := "coherent", rationale := "theme holds" }
    opportunities :=
      [ { description := "raise the stakes", impact := 9/10 },
        { description := "deepen the rivalry", impact := 8/10 },
        { description := "echo the theme", impact := 7/10 } ]
    questions_for_writer := []
    overall_story_health := "good"
    reasoning_confidence := 4/5 }

/-- A concrete snapshot used for planner evaluations. -/
def exampleSnapshot : ContextSnapshot :=
  fullyUnknownSnapshot exampleTrigger

/-! ## External serialized representation

Modelled from the spec: section 6 outbound interface: the InterventionPlan
is serialized as structured data with stable field names; absent optional
fields are represented as null, never with a varying type. -/

/-- Structured external data values (the JSON-like wire representation). -/
inductive Json where
  | null : Json
  | num : ℚ → Json
  | str : String → Json
  | arr : List Json → Json
  | obj : List (String × Json) → Json

/-- Reads a natural number back from a numeric wire value. -/
def qToNat (q : ℚ) : Option Nat :=
  if q.den = 1 ∧ 0 ≤ q.num then some q.num.toNat else none

/-- Modelled from the spec: serialization of one PlannedIntervention with
stable field names; an absent target hint is emitted as null. -/
def serializeIntervention (pi : PlannedIntervention) : Json :=
  Json.obj
    [ ("priority", Json.num (pi.priority : ℚ)),
      ("what", Json.str pi.what),
      ("why", Json.str pi.why),
      ("target_hint",
        match pi.target_hint with
        | some t => Json.str t
        | none => Json.null),
      ("confidence", Json.num pi.confidence) ]

/-- Modelled from the spec: strict parse of one PlannedIntervention from
its wire representation; the target hint must be a string or null, never
another type. -/
def parseIntervention : Json → Option PlannedIntervention
  | Json.obj [(k1, Json.num p), (k2, Json.str w), (k3, Json.str y), (k4, th),
      (k5, Json.num c)] =>
    if k1 = "priority" ∧ k2 = "what" ∧ k3 = "why" ∧ k4 = "target_hint"
        ∧ k5 = "confidence" then
      match qToNat p with
      | some pr =>
        match th with
        | Json.null =>
          some { priority := pr, what := w, why := y, target_hint := none, confidence := c }
        | Json.str t =>
          some { priority := pr, what := w, why := y, target_hint := some t, confidence := c }
        | _ => none
      | none => none
    else none
  | _ => none

/-- Parses a list of serialized interventions, failing if any element
fails. -/
def parseInterventionList : List Json → Option (List PlannedIntervention)
  | [] => some []
  | jn :: rest =>
    match parseIntervention jn with
    | some pi =>
      match parseInterventionList rest with
      | some l => some (pi :: l)
      | none => none
    | none => none

/-- Modelled from the spec: serialization of an InterventionPlan with
stable field names (the README InterventionPlan model). -/
def serializePlan (p : InterventionPlan) : Json :=
  Json.obj
    [ ("story_id", Json.str p.story_id),
      ("trigger_event", Json.str p.trigger_event),
      ("planned_interventions", Json.arr (p.planned_interventions.map serializeIntervention)),
      ("why_these_interventions", Json.str p.why_these_interventions),
      ("overall_story_health", Json.str p.overall_story_health),
      ("plan_confidence", Json.num p.plan_confidence) ]

/-- Modelled from the spec: strict parse of an InterventionPlan from its
wire representation. -/
def parsePlan : Json → Option InterventionPlan
  | Json.obj [(k1, Json.str sid), (k2, Json.str ev), (k3, Json.arr items),
      (k4, Json.str why), (k5, Json.str health), (k6, Json.num conf)] =>
    if k1 = "story_id" ∧ k2 = "trigger_event" ∧ k3 = "planned_interventions"
        ∧ k4 = "why_these_interventions" ∧ k5 = "overall_story_health"
        ∧ k6 = "plan_confidence" then
      match parseInterventionList items with
      | some l =>
        some { story_id := sid, trigger_event := ev, planned_interventions := l,
               why_these_interventions := why, overall_story_health := health,
               plan_confidence := conf }
      | none => none
    else none
  | _ => none

end Nolan

namespace Nolan

/-- C10: after a successful handleImproveFlow (which requires non-blank
content, stores the pre-improvement content and replaces the editor content
with the improved text), handleUndoChanges restores the editor content to
exactly the pre-improvement value and clears both the stored original
content and the Keep/Undo controls. -/
theorem claim10_improve_then_undo_restores (s : EditorState) (improved : String)
    (h : blankContent s.content = false) :
    (handleImproveFlow s improved).content = improved
    ∧ (handleImproveFlow s improved).originalContent = s.content
    ∧ (handleImproveFlow s improved).showKeepUndoControls = true
    ∧ (handleUndoChanges (handleImproveFlow s improved)).content = s.content
    ∧ (handleUndoChanges (handleImproveFlow s improved)).originalContent = ""
    ∧ (handleUndoChanges (handleImproveFlow s improved)).showKeepUndoControls = false := by
  simp [handleImproveFlow, handleUndoChanges, h]

/-- C10 witness: the improve-then-undo round trip evaluated on a concrete
editor state. -/
theorem claim10_witness :
    (handleUndoChanges
        (handleImproveFlow
          { content := "hello world", originalContent := "", showKeepUndoControls := false }
          "hello improved world")).content = "hello world" :=
  (claim10_improve_then_undo_restores
    { content := "hello world", originalContent := "", showKeepUndoControls := false }
    "hello improved world" (by decide)).2.2.2.1

/-- C9: the insight panel renders exactly the first three elements of the
interventions list of a successful quick-analyze response (it applies
slice of 0 to 3); any intervention past index 2 is never displayed. -/
theorem claim9_insight_panel_slices_three (ins : QuickAnalyzeInsights) :
    renderedInsightItems ins = (ins.interventions.map (fun item => item.what)).take 3
    ∧ (renderedInsightItems ins).length = min 3 ins.interventions.length
    ∧ (∀ k, 3 ≤ k → (renderedInsightItems ins)[k]? = none)
    ∧ (∀ k, k < 3 →
        (renderedInsightItems ins)[k]?
          = ins.interventions[k]?.map (fun item => item.what)) := by
  refine ⟨?_, ?_, ?_, ?_⟩
  · simp [renderedInsightItems, List.map_take]
  · simp [renderedInsightItems]
  · intro k hk
    apply List.getElem?_eq_none
    simp only [renderedInsightItems, List.length_map, List.length_take]
    exact le_trans (min_le_left _ _) hk
  · intro k hk
    simp [renderedInsightItems, List.getElem?_map, List.getElem?_take_of_lt hk]

/-- C9 witness: a concrete four-intervention response renders nothing at
index 3. -/
theorem claim9_witness :
    (renderedInsightItems exampleInsightsFour)[3]? = none :=
  (claim9_insight_panel_slices_three exampleInsightsFour).2.2.1 3 (le_refl 3)

/-- C3: for every combination of present, absent or malformed upstream
payloads plus any recent-scene list and trigger descriptor, the Context
Aggregator returns a ContextSnapshot (it is a total function); the story
identifier and trigger are always preserved, the recent-scene list is a
suffix of the input bounded by the configured maximum (oldest dropped
first), and each degraded feed is recorded as its explicit
absent-or-unknown sentinel value rather than a propagated null. -/
theorem claim3_aggregator_total_sentinels (cfg : Config)
    (nlp : Upstream RawNLPSignals) (kg : Upstream RawKnowledgeGraph)
    (cont : Upstream RawContinuity) (prefs : Upstream RawWriterPrefs)
    (recent : List String) (trig : TriggerContext) :
    (synthesizeObservation cfg nlp kg cont prefs recent trig).story_id = trig.story_id
    ∧ (synthesizeObservation cfg nlp kg cont prefs recent trig).trigger = trig
    ∧ (synthesizeObservation cfg nlp kg cont prefs recent trig).recent_scenes.length
        ≤ cfg.max_recent_scenes ⊔ recent.length
    ∧ (synthesizeObservation cfg nlp kg cont prefs recent trig).recent_scenes <:+ recent
    ∧ (nlp.degraded →
        (synthesizeObservation cfg nlp kg cont prefs recent trig).nlp_signals
          = unknownNLPSignals)
    ∧ (kg.degraded →
        (synthesizeObservation cfg nlp kg cont prefs recent trig).knowledge_graph_state
          = emptyKnowledgeGraph)
    ∧ (cont.degraded →
        (synthesizeObservation cfg nlp kg cont prefs recent trig).continuity_signals
          = noContinuitySignals)
    ∧ (prefs.degraded →
        (synthesizeObservation cfg nlp kg cont prefs recent trig).writer_preferences
          = unknownWriterPreferences) := by
  refine ⟨rfl, rfl, ?_, ?_, ?_, ?_, ?_, ?_⟩
  · simp only [synthesizeObservation, truncateRecent, List.length_drop]
    omega
  · exact List.drop_suffix _ _
  · cases nlp <;> intro h <;> first | exact absurd h not_false | rfl
  · cases kg <;> intro h <;> first | exact absurd h not_false | rfl
  · cases cont <;> intro h <;> first | exact absurd h not_false | rfl
  · cases prefs <;> intro h <;> first | exact absurd h not_false | rfl

/-- C3 witness: with every feed absent, the aggregator returns the snapshot
whose components are exactly the explicit sentinel values. -/
theorem claim3_witness :
    (synthesizeObservation defaultConfig Upstream.absent Upstream.absent
        Upstream.absent Upstream.absent [] exampleTrigger).nlp_signals = unknownNLPSignals
    ∧ (synthesizeObservation defaultConfig Upstream.absent Upstream.absent
        Upstream.absent Upstream.absent [] exampleTrigger).writer_preferences
        = unknownWriterPreferences := by
  have h := claim3_aggregator_total_sentinels defaultConfig Upstream.absent Upstream.absent
    Upstream.absent Upstream.absent [] exampleTrigger
  exact ⟨h.2.2.2.2.1 trivial, h.2.2.2.2.2.2.2 trivial⟩

/-- C7: the Insight Extractor is a pure, total, deterministic function of
the ContextSnapshot: it returns a derived-insights value for every
snapshot, two runs on equal snapshots return equal results, and the fully
unknown snapshot yields the neutral default insight. -/
theorem claim7_extractor_total_deterministic (trig : TriggerContext)
    (s t : ContextSnapshot) :
    (s = t → interpretNarrative s = interpretNarrative t)
    ∧ interpretNarrative (fullyUnknownSnapshot trig) = neutralInsights := by
  constructor
  · intro h
    rw [h]
  · rfl

/-- Helper: when every successful provider response fails both parsing
strategies, the bounded retry loop ends in the fallback judgment, whatever
the fuel, attempt index and accumulated waits. -/
theorem runClientGo_fallback_of_parse_fail {β : Type} (cfg : Config)
    (strict lenient : β → Option ReasoningJudgment) :
    ∀ (fuel idx : Nat) (responses : List (ProviderResponse β)) (waits : List ℚ),
      (∀ b, ProviderResponse.success b ∈ responses → strict b = none ∧ lenient b = none) →
      (runClientGo cfg strict lenient fuel idx responses waits).1 = fallbackJudgment := by
  intro fuel
  induction fuel with
  | zero => intro idx responses waits _; rfl
  | succ n ih =>
    intro idx responses waits h
    cases responses with
    | nil => rfl
    | cons r rest =>
      cases r with
      | success body =>
        have hb := h body (List.mem_cons_self _ _)
        simp [runClientGo, hb.1, hb.2]
      | fatal => rfl
      | transientError =>
        exact ih (idx + 1) rest _ (fun b hb => h b (List.mem_cons_of_mem _ hb))
      | rateLimited d =>
        exact ih (idx + 1) rest _ (fun b hb => h b (List.mem_cons_of_mem _ hb))

/-- C1: if every attempt fails (each successful response body defeats both
the strict and the lenient parsing strategy, and all other responses are
errors), the Reasoning Client returns the deterministic fallback judgment:
neutral assessments, empty concern and opportunity lists, confidence 0 and
overall story-health unknown. The client is a total function into
ReasoningJudgment, so no provider or parse failure can escape it, and the
confidence field is present on every judgment it returns. -/
theorem claim1_client_fallback_on_total_failure {β : Type} (cfg : Config)
    (strict lenient : β → Option ReasoningJudgment)
    (responses : List (ProviderResponse β))
    (h : ∀ b, ProviderResponse.success b ∈ responses → strict b = none ∧ lenient b = none) :
    (runReasoningClient cfg strict lenient responses).1 = fallbackJudgment
    ∧ (runReasoningClient cfg strict lenient responses).1.momentum_assessment = neutralAssessment
    ∧ (runReasoningClient cfg strict lenient responses).1.character_arc_assessment
        = neutralAssessment
    ∧ (runReasoningClient cfg strict lenient responses).1.emotional_trajectory
        = neutralAssessment
    ∧ (runReasoningClient cfg strict lenient responses).1.thematic_health = neutralAssessment
    ∧ (runReasoningClient cfg strict lenient responses).1.structural_concerns = []
    ∧ (runReasoningClient cfg strict lenient responses).1.opportunities = []
    ∧ (runReasoningClient cfg strict lenient responses).1.reasoning_confidence = 0
    ∧ (runReasoningClient cfg strict lenient responses).1.overall_story_health = "unknown" := by
  have hf : (runReasoningClient cfg strict lenient responses).1 = fallbackJudgment :=
    runClientGo_fallback_of_parse_fail cfg strict lenient cfg.max_retry_attempts 0 responses [] h
  rw [hf]
  exact ⟨rfl, rfl, rfl, rfl, rfl, rfl, rfl, rfl, rfl⟩

/-- C1 witness: a provider that times out on every one of the three
attempts yields exactly the fallback judgment. -/
theorem claim1_witness :
    (runReasoningClient defaultConfig (fun _ : Unit => none) (fun _ => none)
        [ProviderResponse.transientError, ProviderResponse.transientError,
          ProviderResponse.transientError]).1 = fallbackJudgment
    ∧ (runReasoningClient defaultConfig (fun _ : Unit => none) (fun _ => none)
        [ProviderResponse.transientError, ProviderResponse.transientError,
          ProviderResponse.transientError]).1.reasoning_confidence = 0 := by
  have h := claim1_client_fallback_on_total_failure defaultConfig
    (fun _ : Unit => none) (fun _ => none)
    [ProviderResponse.transientError, ProviderResponse.transientError,
      ProviderResponse.transientError]
    (fun b hb => by simp at hb)
  exact ⟨h.1, h.2.2.2.2.2.2.2.1⟩

/-- C6: when the provider answers the first call with a rate-limit signal
advertising delay d (within the configured cap) and the second call
succeeds with a body that parses strictly to judgment j, the Reasoning
Client waits exactly the advertised delay d before the second call
(honoring it instead of the exponential backoff schedule) and returns j,
not the fallback. -/
theorem claim6_rate_limit_delay_honored {β : Type} (cfg : Config)
    (strict lenient : β → Option ReasoningJudgment) (b : β) (j : ReasoningJudgment) (d : ℚ)
    (hd : d ≤ cfg.rate_limit_cap_seconds) (hs : strict b = some j)
    (ha : 2 ≤ cfg.max_retry_attempts) :
    runReasoningClient cfg strict lenient
        [ProviderResponse.rateLimited d, ProviderResponse.success b]
      = (j, [d]) := by
  obtain ⟨k, hk⟩ := Nat.exists_eq_add_of_le' ha
  unfold runReasoningClient
  rw [hk]
  simp [runClientGo, hs, min_eq_left hd]

/-- C6 witness: a rate-limited first call advertising a two-second delay
followed by a parsable success returns the parsed judgment after waiting
exactly two seconds. -/
theorem claim6_witness :
    runReasoningClient defaultConfig (fun _ : Unit => some exampleJudgment)
        (fun _ => none)
        [ProviderResponse.rateLimited 2, ProviderResponse.success ()]
      = (exampleJudgment, [2]) :=
  claim6_rate_limit_delay_honored defaultConfig
    (fun _ : Unit => some exampleJudgment) (fun _ => none) () exampleJudgment 2
    (by norm_num [defaultConfig]) rfl (by norm_num [defaultConfig])

/-- Helper: converting candidates to interventions preserves the list
length, whatever the starting priority ordinal. -/
theorem toInterventions_length (hint : Option String) :
    ∀ (l : List Candidate) (n : Nat), (toInterventions hint n l).length = l.length := by
  intro l
  induction l with
  | nil => intro n; rfl
  | cons c rest ih =>
    intro n
    simp [toInterventions, ih (n + 1)]

/-- Helper: every planned intervention inherits its confidence from some
candidate of the ranked list it was built from. -/
theorem mem_toInterventions (hint : Option String) :
    ∀ (l : List Candidate) (n : Nat) (pi : PlannedIntervention),
      pi ∈ toInterventions hint n l → ∃ c ∈ l, pi.confidence = c.confidence := by
  intro l
  induction l with
  | nil => intro n pi h; simp [toInterventions] at h
  | cons c rest ih =>
    intro n pi h
    rw [toInterventions, List.mem_cons] at h
    rcases h with h | h
    · exact ⟨c, List.mem_cons_self _ _, by rw [h]⟩
    · obtain ⟨c', hc', he⟩ := ih (n + 1) pi h
      exact ⟨c', List.mem_cons_of_mem _ hc', he⟩

/-- Helper: every candidate of the ranked list passed the configured
confidence threshold. -/
theorem rankCandidates_confidence (cfg : Config) (j : ReasoningJudgment)
    (c : Candidate) (hc : c ∈ rankCandidates cfg j) :
    cfg.min_confidence_threshold ≤ c.confidence := by
  have h1 : c ∈ (List.insertionSort candPref (candidates cfg j)).filter
      (fun c => decide (cfg.min_confidence_threshold ≤ c.confidence)) :=
    List.mem_of_mem_take hc
  have h2 := (List.mem_filter.mp h1).2
  exact of_decide_eq_true h2

/-- C4: every planned intervention carries a confidence at least the
configured minimum threshold, and the number of interventions in a plan
never exceeds the configured per-cycle maximum; in particular a judgment
with exactly three candidates above threshold under a configured maximum
of two yields a plan with exactly two interventions. -/
theorem claim4_confidence_floor_and_cap (cfg : Config) (j : ReasoningJudgment)
    (s : ContextSnapshot) :
    (∀ pi ∈ (planInterventions cfg j s).planned_interventions,
        cfg.min_confidence_threshold ≤ pi.confidence)
    ∧ (planInterventions cfg j s).planned_interventions.length
        ≤ cfg.max_suggestions_per_cycle
    ∧ (planInterventions cfgMaxTwo exampleJudgmentThree
        exampleSnapshot).planned_interventions.length = 2 := by
  refine ⟨?_, ?_, ?_⟩
  · intro pi hpi
    by_cases h0 : j.reasoning_confidence = 0
    · rw [planInterventions, if_pos h0] at hpi
      simp at hpi
    · rw [planInterventions, if_neg h0] at hpi
      obtain ⟨c, hc, he⟩ := mem_toInterventions (targetHint s) (rankCandidates cfg j) 1 pi hpi
      rw [he]
      exact rankCandidates_confidence cfg j c hc
  · by_cases h0 : j.reasoning_confidence = 0
    · rw [planInterventions, if_pos h0]
      exact Nat.zero_le _
    · rw [planInterventions, if_neg h0]
      have hl := toInterventions_length (targetHint s) (rankCandidates cfg j) 1
      simp only [hl]
      exact le_trans (List.length_take_le _ _) (le_refl _)
  · norm_num [planInterventions, cfgMaxTwo, exampleJudgmentThree, rankCandidates,
      candidates, concernCandidatesFrom, opportunityCandidatesFrom,
      List.insertionSort, List.orderedInsert, candPref, toInterventions,
      List.filter_cons, List.filter_nil, decide_eq_true_eq,
      List.take_succ_cons, List.take_zero]

/-- C4 witness: the confidence floor instantiated on the concrete
three-opportunity judgment and the two-suggestion configuration. -/
theorem claim4_witness :
    (∀ pi ∈ (planInterventions cfgMaxTwo exampleJudgmentThree
        exampleSnapshot).planned_interventions,
      cfgMaxTwo.min_confidence_threshold ≤ pi.confidence)
    ∧ (planInterventions cfgMaxTwo exampleJudgmentThree
        exampleSnapshot).planned_interventions.length = 2 :=
  ⟨(claim4_confidence_floor_and_cap cfgMaxTwo exampleJudgmentThree exampleSnapshot).1,
   (claim4_confidence_floor_and_cap cfgMaxTwo exampleJudgmentThree exampleSnapshot).2.2⟩

/-- Helper: facts about the concern-derived candidates: source tag, index
range, score formula and inherited confidence. -/
theorem mem_concernCandidatesFrom (cfg : Config) (conf : ℚ) :
    ∀ (l : List StructuralConcern) (n : Nat) (c : Candidate),
      c ∈ concernCandidatesFrom cfg conf n l →
        c.source = CandidateSource.concern
        ∧ n ≤ c.src_index ∧ c.src_index < n + l.length
        ∧ c.confidence = conf
        ∧ ∃ sc ∈ l, c.score = cfg.severity_weight * sc.severity := by
  intro l
  induction l with
  | nil => intro n c h; simp [concernCandidatesFrom] at h
  | cons sc rest ih =>
    intro n c h
    rw [concernCandidatesFrom, List.mem_cons] at h
    rcases h with h | h
    · subst h
      exact ⟨rfl, le_refl _, by simp, rfl, sc, List.mem_cons_self _ _, rfl⟩
    · obtain ⟨hsrc, hle, hlt, hconf, sc', hsc', hscore⟩ := ih (n + 1) c h
      refine ⟨hsrc, le_trans (Nat.le_succ n) hle, ?_, hconf,
        sc', List.mem_cons_of_mem _ hsc', hscore⟩
      simp only [List.length_cons]
      omega

/-- Helper: facts about the opportunity-derived candidates: source tag,
index range, score formula and inherited confidence. -/
theorem mem_opportunityCandidatesFrom (cfg : Config) (conf : ℚ) :
    ∀ (l : List Opportunity) (n : Nat) (c : Candidate),
      c ∈ opportunityCandidatesFrom cfg conf n l →
        c.source = CandidateSource.opportunity
        ∧ n ≤ c.src_index ∧ c.src_index < n + l.length
        ∧ c.confidence = conf
        ∧ ∃ o ∈ l, c.score = cfg.impact_weight * o.impact := by
  intro l
  induction l with
  | nil => intro n c h; simp [opportunityCandidatesFrom] at h
  | cons o rest ih =>
    intro n c h
    rw [opportunityCandidatesFrom, List.mem_cons] at h
    rcases h with h | h
    · subst h
      exact ⟨rfl, le_refl _, by simp, rfl, o, List.mem_cons_self _ _, rfl⟩
    · obtain ⟨hsrc, hle, hlt, hconf, o', ho', hscore⟩ := ih (n + 1) c h
      refine ⟨hsrc, le_trans (Nat.le_succ n) hle, ?_, hconf,
        o', List.mem_cons_of_mem _ ho', hscore⟩
      simp only [List.length_cons]
      omega

/-- Helper: length of the concern-derived candidate list. -/
theorem concernCandidatesFrom_length (cfg : Config) (conf : ℚ) :
    ∀ (l : List StructuralConcern) (n : Nat),
      (concernCandidatesFrom cfg conf n l).length = l.length := by
  intro l
  induction l with
  | nil => intro n; rfl
  | cons sc rest ih => intro n; simp [concernCandidatesFrom, ih (n + 1)]

/-- Helper: length of the opportunity-derived candidate list. -/
theorem opportunityCandidatesFrom_length (cfg : Config) (conf : ℚ) :
    ∀ (l : List Opportunity) (n : Nat),
      (opportunityCandidatesFrom cfg conf n l).length = l.length := by
  intro l
  induction l with
  | nil => intro n; rfl
  | cons o rest ih => intro n; simp [opportunityCandidatesFrom, ih (n + 1)]

/-- C5: the planner derives at most one candidate from each structural
concern and each opportunity (the candidate count equals the sum of the
two list lengths, concerns occupying the leading index range), scores each
candidate by severity or impact times the configured weighting with
confidence inherited from the judgment, and the ranked list is a stable
descending sort: the sorted list is a permutation of the candidates, and
any earlier element has a strictly greater score or an equal score with a
smaller-or-equal original position, so ties keep original order and
concerns precede opportunities of equal score. -/
theorem claim5_one_to_one_scored_stable_sort (cfg : Config) (j : ReasoningJudgment) :
    (candidates cfg j).length
        = j.structural_concerns.length + j.opportunities.length
    ∧ (∀ c ∈ candidates cfg j, c.confidence = j.reasoning_confidence)
    ∧ (∀ c ∈ candidates cfg j, c.source = CandidateSource.concern →
        c.src_index < j.structural_concerns.length
        ∧ ∃ sc ∈ j.structural_concerns, c.score = cfg.severity_weight * sc.severity)
    ∧ (∀ c ∈ candidates cfg j, c.source = CandidateSource.opportunity →
        j.structural_concerns.length ≤ c.src_index
        ∧ ∃ o ∈ j.opportunities, c.score = cfg.impact_weight * o.impact)
    ∧ List.Perm (List.insertionSort candPref (candidates cfg j)) (candidates cfg j)
    ∧ List.Sorted candPref (List.insertionSort candPref (candidates cfg j))
    ∧ List.Sorted candPref (rankCandidates cfg j) := by
  refine ⟨?_, ?_, ?_, ?_, List.perm_insertionSort candPref _,
    List.sorted_insertionSort candPref _, ?_⟩
  · simp [candidates, concernCandidatesFrom_length, opportunityCandidatesFrom_length]
  · intro c hc
    rcases List.mem_append.mp hc with h | h
    · exact (mem_concernCandidatesFrom cfg _ _ 0 c h).2.2.2.1
    · exact (mem_opportunityCandidatesFrom cfg _ _ _ c h).2.2.2.1
  · intro c hc hsrc
    rcases List.mem_append.mp hc with h | h
    · obtain ⟨_, _, hlt, _, sc, hsc, hscore⟩ := mem_concernCandidatesFrom cfg _ _ 0 c h
      exact ⟨by simpa using hlt, sc, hsc, hscore⟩
    · obtain ⟨hs, _⟩ := mem_opportunityCandidatesFrom cfg _ _ _ c h
      rw [hsrc] at hs
      cases hs
  · intro c hc hsrc
    rcases List.mem_append.mp hc with h | h
    · obtain ⟨hs, _⟩ := mem_concernCandidatesFrom cfg _ _ 0 c h
      rw [hsrc] at hs
      cases hs
    · obtain ⟨_, hle, _, _, o, ho, hscore⟩ := mem_opportunityCandidatesFrom cfg _ _ _ c h
      exact ⟨hle, o, ho, hscore⟩
  · have hs := List.sorted_insertionSort candPref (candidates cfg j)
    exact hs.sublist (List.Sublist.trans (List.take_sublist _ _) (List.filter_sublist _))

/-- C5 witness: the one-to-one derivation count and the sorted ranking
evaluated on the concrete three-opportunity judgment. -/
theorem claim5_witness :
    (candidates cfgMaxTwo exampleJudgmentThree).length
        = exampleJudgmentThree.structural_concerns.length
          + exampleJudgmentThree.opportunities.length
    ∧ List.Sorted candPref (rankCandidates cfgMaxTwo exampleJudgmentThree) :=
  ⟨(claim5_one_to_one_scored_stable_sort cfgMaxTwo exampleJudgmentThree).1,
   (claim5_one_to_one_scored_stable_sort cfgMaxTwo exampleJudgmentThree).2.2.2.2.2.2⟩

/-- C2: whenever the Reasoning Client can only produce the fallback
judgment (every scripted provider response fails both parsing strategies,
which covers a provider that always times out), the Cycle Orchestrator
still returns a well-formed InterventionPlan with an empty intervention
list, the reasoning-unavailable rationale, confidence 0 and the trigger
metadata of the cycle; the caller never receives an error for this
condition. -/
theorem claim2_orchestrator_fallback_plan {β : Type} (cfg : Config)
    (strict lenient : β → Option ReasoningJudgment)
    (provider : String → List (ProviderResponse β))
    (nlp : Upstream RawNLPSignals) (kg : Upstream RawKnowledgeGraph)
    (cont : Upstream RawContinuity) (prefs : Upstream RawWriterPrefs)
    (recent : List String) (trig : TriggerContext)
    (h : ∀ (p : String) (b : β), ProviderResponse.success b ∈ provider p →
        strict b = none ∧ lenient b = none) :
    (runReasoningCycle cfg strict lenient provider nlp kg cont prefs recent
        trig).planned_interventions = []
    ∧ (runReasoningCycle cfg strict lenient provider nlp kg cont prefs recent
        trig).why_these_interventions = unavailableRationale
    ∧ (runReasoningCycle cfg strict lenient provider nlp kg cont prefs recent
        trig).plan_confidence = 0
    ∧ (runReasoningCycle cfg strict lenient provider nlp kg cont prefs recent
        trig).story_id = trig.story_id
    ∧ (runReasoningCycle cfg strict lenient provider nlp kg cont prefs recent
        trig).trigger_event = trig.event_name := by
  have hj : ∀ p, (runReasoningClient cfg strict lenient (provider p)).1 = fallbackJudgment :=
    fun p => runClientGo_fallback_of_parse_fail cfg strict lenient
      cfg.max_retry_attempts 0 (provider p) [] (h p)
  simp only [runReasoningCycle, hj]
  have h0 : fallbackJudgment.reasoning_confidence = 0 := rfl
  rw [planInterventions, if_pos h0]
  exact ⟨rfl, rfl, rfl, rfl, rfl⟩

/-- C2 witness: with every feed absent and a provider stub that times out
on every call, the orchestrator returns the empty fallback plan for the
concrete trigger. -/
theorem claim2_witness :
    (runReasoningCycle defaultConfig (fun _ : Unit => none) (fun _ => none)
        (fun _ => [ProviderResponse.transientError, ProviderResponse.transientError,
          ProviderResponse.transientError])
        Upstream.absent Upstream.absent Upstream.absent Upstream.absent []
        exampleTrigger).planned_interventions = []
    ∧ (runReasoningCycle defaultConfig (fun _ : Unit => none) (fun _ => none)
        (fun _ => [ProviderResponse.transientError, ProviderResponse.transientError,
          ProviderResponse.transientError])
        Upstream.absent Upstream.absent Upstream.absent Upstream.absent []
        exampleTrigger).plan_confidence = 0 := by
  have h := claim2_orchestrator_fallback_plan defaultConfig
    (fun _ : Unit => none) (fun _ => none)
    (fun _ => [ProviderResponse.transientError, ProviderResponse.transientError,
      ProviderResponse.transientError])
    Upstream.absent Upstream.absent Upstream.absent Upstream.absent []
    exampleTrigger
    (fun p b hb => by simp at hb)
  exact ⟨h.1, h.2.2.1⟩

/-- Helper: a natural number written as a numeric wire value reads back
unchanged. -/
theorem qToNat_natCast (n : Nat) : qToNat (n : ℚ) = some n := by
  simp [qToNat, Rat.den_natCast, Rat.num_natCast, Int.natCast_nonneg]

/-- Helper: one intervention round-trips through the wire representation. -/
theorem parseIntervention_serializeIntervention (pi : PlannedIntervention) :
    parseIntervention (serializeIntervention pi) = some pi := by
  obtain ⟨pr, w, y, th, c⟩ := pi
  cases th <;> simp [serializeIntervention, parseIntervention, qToNat_natCast]

/-- Helper: a list of interventions round-trips elementwise. -/
theorem parseInterventionList_map (l : List PlannedIntervention) :
    parseInterventionList (l.map serializeIntervention) = some l := by
  induction l with
  | nil => rfl
  | cons pi rest ih =>
    simp [parseInterventionList, parseIntervention_serializeIntervention, ih]

/-- C8: serializing an InterventionPlan to its external structured
representation and parsing that representation back yields a value equal
field-for-field to the original; the serialized form uses stable field
names and represents the absent target hint as null, never with a varying
type. -/
theorem claim8_plan_serialization_round_trip (p : InterventionPlan) :
    parsePlan (serializePlan p) = some p := by
  obtain ⟨sid, ev, items, why, health, conf⟩ := p
  simp [serializePlan, parsePlan, parseInterventionList_map]

/-- C8 witness: the round trip evaluated on a concrete plan holding an
intervention with an absent target hint and one with a present hint. -/
theorem claim8_witness :
    parsePlan (serializePlan
        { story_id := "story_123", trigger_event := "new_scene_added",
          planned_interventions :=
            [ { priority := 1, what := "a", why := "wa", target_hint := none,
                confidence := 4/5 },
              { priority := 2, what := "b", why := "wb",
                target_hint := some "chapter 3", confidence := 3/5 } ],
          why_these_interventions := "test", overall_story_health := "good",
          plan_confidence := 4/5 })
      = some
        { story_id := "story_123", trigger_event := "new_scene_added",
          planned_interventions :=
            [ { priority := 1, what := "a", why := "wa", target_hint := none,
                confidence := 4/5 },
              { priority := 2, what := "b", why := "wb",
                target_hint := some "chapter 3", confidence := 3/5 } ],
          why_these_interventions := "test", overall_story_health := "good",
          plan_confidence := 4/5 } :=
  claim8_plan_serialization_round_trip
    { story_id := "story_123", trigger_event := "new_scene_added",
      planned_interventions :=
        [ { priority := 1, what := "a", why := "wa", target_hint := none,
            confidence := 4/5 },
          { priority := 2, what := "b", why := "wb",
            target_hint := some "chapter 3", confidence := 3/5 } ],
      why_these_interventions := "test", overall_story_health := "good",
      plan_confidence := 4/5 }

/-- C7 witness: determinism and the neutral default evaluated on the
concrete fully unknown snapshot. -/
theorem claim7_witness :
    interpretNarrative (fullyUnknownSnapshot exampleTrigger)
      = interpretNarrative (fullyUnknownSnapshot exampleTrigger)
    ∧ interpretNarrative (fullyUnknownSnapshot exampleTrigger) = neutralInsights :=
  ⟨(claim7_extractor_total_deterministic exampleTrigger
      (fullyUnknownSnapshot exampleTrigger) (fullyUnknownSnapshot exampleTrigger)).1 rfl,
   (claim7_extractor_total_deterministic exampleTrigger
      (fullyUnknownSnapshot exampleTrigger) (fullyUnknownSnapshot exampleTrigger)).2⟩

end Nolan
